import Mathlib

/-!
Verification of the device-automation server core (`src/main.py`):
connection registry, command dispatch, and asynchronous screenshot-task
correlation.  Python dicts are modelled as association lists with
dict-style `set` / `pop` / membership operations; timestamps are `Nat`
seconds; the JSON objects flowing through commands and replies are
modelled as string association lists (`Obj`); the websocket transport is
abstracted by the data the handler receives (a script of parsed
messages) and the send outcome (`sendErr : Option String`).
-/

namespace DeviceAutomation

/-- A JSON object as it appears in command targets / parameters /
screenshot resolutions: an association of string keys to string values. -/
abbrev Obj := List (String × String)

/-- Lookup in an association list, mirroring Python `d.get(k)` /
`d[k]`. -/
def alookup {α : Type} : List (String × α) → String → Option α
  | [], _ => none
  | (k, v) :: rest, key => if k = key then some v else alookup rest key

/-- Remove every entry with the given key, mirroring Python
`d.pop(k, None)` (a dict holds at most one entry per key). -/
def aerase {α : Type} (l : List (String × α)) (key : String) : List (String × α) :=
  l.filter (fun p => p.1 ≠ key)

/-- Store a value under a key, replacing any previous entry, mirroring
Python `d[k] = v`. -/
def aset {α : Type} (l : List (String × α)) (key : String) (v : α) : List (String × α) :=
  (key, v) :: aerase l key

theorem alookup_aerase {α : Type} (l : List (String × α)) (key : String) :
    alookup (aerase l key) key = none := by
  induction l with
  | nil => rfl
  | cons p rest ih =>
    by_cases h : p.1 = key
    · simpa [aerase, List.filter_cons, h] using ih
    · simp only [aerase, List.filter_cons, h, decide_eq_true_eq, ite_not] at ih ⊢
      simpa [alookup, h] using ih

theorem alookup_aset_self {α : Type} (l : List (String × α)) (key : String) (v : α) :
    alookup (aset l key v) key = some v := by
  simp [aset, alookup]

theorem alookup_aerase_ne {α : Type} (l : List (String × α)) (key k : String)
    (h : k ≠ key) : alookup (aerase l key) k = alookup l k := by
  induction l with
  | nil => rfl
  | cons p rest ih =>
    by_cases hp : p.1 = key
    · have hpk : p.1 ≠ k := by rw [hp]; exact fun hh => h hh.symm
      simp only [aerase, List.filter_cons, hp, decide_eq_true_eq, ite_not] at ih ⊢
      simp only [if_true]
      rw [alookup, if_neg hpk]
      exact ih
    · simp only [aerase, List.filter_cons, hp, decide_eq_true_eq, ite_not] at ih ⊢
      simp only [if_false]
      rw [alookup, alookup]
      by_cases hk : p.1 = k
      · simp [hk]
      · rw [if_neg hk, if_neg hk]
        exact ih

theorem alookup_aset_ne {α : Type} (l : List (String × α)) (key k : String) (v : α)
    (h : k ≠ key) : alookup (aset l key v) k = alookup l k := by
  simp only [aset, alookup]
  rw [if_neg (fun hh => h hh.symm)]
  exact alookup_aerase_ne l key k h

/-- A peer record in the device registry (`device_registry[device_id]`,
built in `register_device`). -/
structure Device where
  name : String
  device_type : String
  os_info : Option String
  capabilities : List String
  status : String
  registered_at : Nat
deriving Repr, DecidableEq

/-- A screenshot correlation record (`screenshot_tasks[request_id]`,
built in `request_screenshot` and mutated by the websocket reply
handler).  `completed_at` is absent until a success reply sets it. -/
structure Task where
  status : String
  device_id : String
  description : Option String
  created_at : Nat
  screenshot : Option String
  resolution : Option Obj
  error : Option String
  completed_at : Option Nat
deriving Repr, DecidableEq

/-- An opaque channel identity standing for one `WebSocket` object. -/
abbrev Channel := Nat

/-- The three global dicts of `main.py`: `connected_devices`
(peer id → live channel), `device_registry` (peer id → record) and
`screenshot_tasks` (request id → task). -/
structure ServerState where
  connected_devices : List (String × Channel)
  device_registry : List (String × Device)
  screenshot_tasks : List (String × Task)
deriving Repr, DecidableEq

/-- A decoded credential.  `valid` stands for "correctly signed with the
server key" (`jwt.decode` succeeds); `device_id` and `token_type` are the
payload fields `device_id` and `type` written by `create_token`. -/
structure Token where
  valid : Bool
  device_id : Option String
  token_type : Option String
deriving Repr, DecidableEq

/-- `verify_token`: returns the payload when the signature checks out,
raises (here: `none`) otherwise. -/
def verify_token (t : Token) : Option Token :=
  if t.valid then some t else none

/-- The handler's acceptance decision (lines 333-341 of `main.py`): the
token must verify and its `device_id` payload field must equal the peer
id in the websocket path. -/
def authAccept (t : Token) (device_id : String) : Bool :=
  match verify_token t with
  | none => false
  | some payload => payload.device_id = some device_id

/-- One parsed inbound reply message; field values are the results of the
`response_data.get(...)` calls in the websocket receive loop
(`result` defaults to the empty object, so its two projections default
to `none`). -/
structure Reply where
  command_id : Option String
  status : Option String
  result_screenshot : Option String
  result_resolution : Option Obj
  error_message : Option String
deriving Repr, DecidableEq

/-- Python truthiness of the `command_id` field: the guard
`if command_id and ...` rejects both a missing field and the empty
string. -/
def truthyId : Option String → Option String
  | none => none
  | some s => if s = "" then none else some s

/-- The mutation the receive loop applies to a looked-up task: a
`"success"` reply sets `completed`, screenshot, resolution and
`completed_at`; any other reply sets `failed` and the error message
(defaulting to `"Unknown error"`). -/
def applyReply (task : Task) (r : Reply) (now : Nat) : Task :=
  if r.status = some "success" then
    { task with
        status := "completed"
        screenshot := r.result_screenshot
        resolution := r.result_resolution
        completed_at := some now }
  else
    { task with
        status := "failed"
        error := some (r.error_message.getD "Unknown error") }

/-- The receive-loop body for one inbound reply (lines 352-372): if the
message carries a truthy `command_id` present in `screenshot_tasks`, the
task is updated by `applyReply`; otherwise nothing changes. -/
def resolveReply (tasks : List (String × Task)) (r : Reply) (now : Nat) :
    List (String × Task) :=
  match truthyId r.command_id with
  | none => tasks
  | some cid =>
    match alookup tasks cid with
    | none => tasks
    | some task => aset tasks cid (applyReply task r now)

/-- `device_registry[id]["status"] = st` guarded by
`if id in device_registry` — a no-op when the peer is unknown. -/
def mark (reg : List (String × Device)) (device_id : String) (st : String) :
    List (String × Device) :=
  match alookup reg device_id with
  | none => reg
  | some d => aset reg device_id { d with status := st }

/-- Successful-auth registration (lines 343-346):
`connected_devices[device_id] = websocket` plus status update. -/
def bind (s : ServerState) (device_id : String) (ch : Channel) : ServerState :=
  { s with
      connected_devices := aset s.connected_devices device_id ch
      device_registry := mark s.device_registry device_id "connected" }

/-- The `finally` cleanup (lines 380-384):
`connected_devices.pop(device_id, None)` plus status update.  Note it
does not compare the stored channel with the handler's own. -/
def cleanup (s : ServerState) (device_id : String) : ServerState :=
  { s with
      connected_devices := aerase s.connected_devices device_id
      device_registry := mark s.device_registry device_id "disconnected" }

/-- Error taxonomy of the dispatch endpoints: `UnknownPeer` is the
404 "Device not found", `PeerNotConnected` the 503 "Device not
connected", `TransportWriteFailed` the exception from
`websocket.send_text` surfaced as a 500. -/
inductive DispatchError where
  | UnknownPeer : DispatchError
  | PeerNotConnected : DispatchError
  | TransportWriteFailed : String → DispatchError
deriving Repr, DecidableEq

/-- The command envelope dict written to the channel by both
`execute_command` and `request_screenshot`; it has exactly these five
keys. -/
structure CommandData where
  command_id : String
  action : String
  target : Obj
  parameters : Obj
  timestamp : String
deriving Repr, DecidableEq

/-- The body of `AutomationCommand`. -/
structure AutomationCommand where
  command_id : Option String
  action : String
  target : Option Obj
  parameters : Option Obj
deriving Repr, DecidableEq

/-- The envelope built by `execute_command` (lines 293-306): the caller's
command id unless it is falsy (missing or empty, replaced by a fresh
uuid), `target or {}`, `parameters or {}`, and the formatted current
time `ts`. -/
def executeCommandData (command : AutomationCommand) (fresh : String) (ts : String) :
    CommandData :=
  let cid :=
    match command.command_id with
    | none => fresh
    | some c => if c = "" then fresh else c
  { command_id := cid
    action := command.action
    target := command.target.getD []
    parameters := command.parameters.getD []
    timestamp := ts }

/-- The envelope built by `request_screenshot` (lines 222-228): the fresh
request id as command id, action `"screenshot"`, empty target, and a
parameters object holding `description or ""`. -/
def screenshotCommandData (request_id : String) (description : Option String)
    (ts : String) : CommandData :=
  { command_id := request_id
    action := "screenshot"
    target := []
    parameters := [("description", description.getD "")]
    timestamp := ts }

/-- `execute_command` (lines 283-320): registry check, connection check,
envelope construction, transport write (whose failure is injected as
`sendErr`).  It touches no shared state; on success the returned
envelope is exactly what was written to the channel. -/
def execute_command (s : ServerState) (device_id : String)
    (command : AutomationCommand) (fresh : String) (ts : String)
    (sendErr : Option String) : Except DispatchError CommandData :=
  if (alookup s.device_registry device_id).isNone then
    Except.error DispatchError.UnknownPeer
  else if (alookup s.connected_devices device_id).isNone then
    Except.error DispatchError.PeerNotConnected
  else
    match sendErr with
    | none => Except.ok (executeCommandData command fresh ts)
    | some e => Except.error (DispatchError.TransportWriteFailed e)

/-- `request_screenshot` (lines 194-240): registry check, connection
check, creation of the pending task under the fresh `request_id`, then
the transport write; if the write raises, the just-created task is
marked `failed` with the error recorded before the 500 is raised. -/
def request_screenshot (s : ServerState) (device_id : String)
    (description : Option String) (request_id : String) (now : Nat)
    (sendErr : Option String) : ServerState × Except DispatchError String :=
  if (alookup s.device_registry device_id).isNone then
    (s, Except.error DispatchError.UnknownPeer)
  else if (alookup s.connected_devices device_id).isNone then
    (s, Except.error DispatchError.PeerNotConnected)
  else
    let task : Task :=
      { status := "pending"
        device_id := device_id
        description := description
        created_at := now
        screenshot := none
        resolution := none
        error := none
        completed_at := none }
    let s1 : ServerState :=
      { s with screenshot_tasks := aset s.screenshot_tasks request_id task }
    match sendErr with
    | none => (s1, Except.ok request_id)
    | some e =>
      let failedTask : Task := { task with status := "failed", error := some e }
      let s2 : ServerState :=
        { s1 with screenshot_tasks := aset s1.screenshot_tasks request_id failedTask }
      (s2, Except.error (DispatchError.TransportWriteFailed e))

/-- Read failure of the status endpoint: the 404 "Screenshot request not
found". -/
inductive TaskReadError where
  | UnknownTask : TaskReadError
deriving Repr, DecidableEq

/-- The `ScreenshotTaskResponse` snapshot returned by the status
endpoint; `timestamp` is `task.get("completed_at")`. -/
structure Snapshot where
  request_id : String
  status : String
  screenshot : Option String
  timestamp : Option Nat
  resolution : Option Obj
  error : Option String
deriving Repr, DecidableEq

/-- The snapshot the status endpoint builds from a stored task. -/
def mkSnapshot (request_id : String) (task : Task) : Snapshot :=
  { request_id := request_id
    status := task.status
    screenshot := task.screenshot
    timestamp := task.completed_at
    resolution := task.resolution
    error := task.error }

/-- `get_screenshot_status` (lines 242-265): 404 when the id is absent;
otherwise build the snapshot, and — when the task is terminal and more
than 300 seconds have passed since `created_at` — delete the record
before returning the snapshot. -/
def get_screenshot_status (tasks : List (String × Task)) (request_id : String)
    (now : Nat) : List (String × Task) × Except TaskReadError Snapshot :=
  match alookup tasks request_id with
  | none => (tasks, Except.error TaskReadError.UnknownTask)
  | some task =>
    let tasks' :=
      if (task.status = "completed" ∨ task.status = "failed") ∧
          now - task.created_at > 300 then
        aerase tasks request_id
      else tasks
    (tasks', Except.ok (mkSnapshot request_id task))

/-- How one invocation of `device_websocket` ends: `closedWith` records
an explicit `websocket.close(code, reason)` call; `errorExit` is the
exception path with no explicit close (receive/parse failure before
auth, or an error inside the loop); `loopExit` is the
`WebSocketDisconnect` end of the receive loop.  The `finally` cleanup
runs in every case. -/
inductive HandlerOutcome where
  | closedWith : Nat → String → HandlerOutcome
  | errorExit : HandlerOutcome
  | loopExit : HandlerOutcome
deriving Repr, DecidableEq

/-- What the transport delivers to one handler invocation: the parsed
auth message's token (`none` when receiving/parsing the first message
raises), and the well-formed replies processed before the loop ends. -/
structure ConnScript where
  first : Option Token
  replies : List Reply
deriving Repr, DecidableEq

/-- One receive-loop iteration's effect on the shared state. -/
def stepReply (s : ServerState) (r : Reply) (now : Nat) : ServerState :=
  { s with screenshot_tasks := resolveReply s.screenshot_tasks r now }

/-- The receive loop: final state plus the state after each iteration
(head = state on entering the loop). -/
def loopTrace (s : ServerState) (replies : List Reply) (now : Nat) :
    List ServerState × ServerState :=
  match replies with
  | [] => ([s], s)
  | r :: rest =>
    let out := loopTrace (stepReply s r now) rest now
    (s :: out.1, out.2)

/-- All shared-state snapshots of one handler invocation (initial state
included, final post-cleanup state last) plus the outcome. -/
structure HandlerRun where
  trace : List ServerState
  final : ServerState
  outcome : HandlerOutcome
deriving Repr, DecidableEq

/-- `device_websocket` (lines 322-384) for peer `device_id` over fresh
channel `ch`: read the auth message; verify the token and compare its
`device_id` to the path parameter, closing with code 1008 and the
appropriate reason on failure; otherwise bind the channel, mark the
peer connected, run the receive loop over the script's replies, and on
every exit path run the `finally` cleanup. -/
def runHandler (s : ServerState) (device_id : String) (ch : Channel)
    (script : ConnScript) (now : Nat) : HandlerRun :=
  match script.first with
  | none =>
    { trace := [s, cleanup s device_id]
      final := cleanup s device_id
      outcome := HandlerOutcome.errorExit }
  | some t =>
    match verify_token t with
    | none =>
      { trace := [s, cleanup s device_id]
        final := cleanup s device_id
        outcome := HandlerOutcome.closedWith 1008 "Auth failed" }
    | some payload =>
      if payload.device_id = some device_id then
        let bound := bind s device_id ch
        let loop := loopTrace bound script.replies now
        { trace := s :: loop.1 ++ [cleanup loop.2 device_id]
          final := cleanup loop.2 device_id
          outcome := HandlerOutcome.loopExit }
      else
        { trace := [s, cleanup s device_id]
          final := cleanup s device_id
          outcome := HandlerOutcome.closedWith 1008 "Invalid token" }

/-! Concrete fixtures used by counterexamples and witnesses. -/

/-- A task that has already completed successfully. -/
def taskCompletedEx : Task :=
  { status := "completed"
    device_id := "d"
    description := none
    created_at := 0
    screenshot := some "img"
    resolution := none
    error := none
    completed_at := some 10 }

/-- A pending task. -/
def taskPendingEx : Task :=
  { status := "pending"
    device_id := "d"
    description := none
    created_at := 0
    screenshot := none
    resolution := none
    error := none
    completed_at := none }

/-- A task created long ago that completed only just before the read. -/
def taskLateCompletionEx : Task :=
  { status := "completed"
    device_id := "d"
    description := none
    created_at := 0
    screenshot := some "img"
    resolution := none
    error := none
    completed_at := some 400 }

/-- A non-success reply for command id `"r"`. -/
def replyFailEx : Reply :=
  { command_id := some "r"
    status := some "error"
    result_screenshot := none
    result_resolution := none
    error_message := some "boom" }

/-- A success reply for command id `"p"`. -/
def replySuccessEx : Reply :=
  { command_id := some "p"
    status := some "success"
    result_screenshot := some "img2"
    result_resolution := some [("width", "800")]
    error_message := none }

/-- A registered, currently-connected peer record. -/
def devConnectedEx : Device :=
  { name := "phone"
    device_type := "android"
    os_info := none
    capabilities := []
    status := "connected"
    registered_at := 0 }

/-- A state in which peer `"d"` is bound to channel 2 (a newer
connection) and registered. -/
def stateBoundEx : ServerState :=
  { connected_devices := [("d", 2)]
    device_registry := [("d", devConnectedEx)]
    screenshot_tasks := [] }

/-- A state in which peer `"d"` is registered but has never connected. -/
def stateRegisteredOnlyEx : ServerState :=
  { connected_devices := []
    device_registry :=
      [("d", { devConnectedEx with status := "registered" })]
    screenshot_tasks := [] }

/-- A command body with no caller-supplied id, target or parameters. -/
def cmdTapEx : AutomationCommand :=
  { command_id := none
    action := "tap"
    target := none
    parameters := none }

/-- A command body with a caller-supplied id and target but no
parameters. -/
def cmdSwipeEx : AutomationCommand :=
  { command_id := some "c1"
    action := "swipe"
    target := some [("x", "1")]
    parameters := none }

/-- A validly signed token naming peer `"e"`. -/
def tokenOtherPeerEx : Token :=
  { valid := true, device_id := some "e", token_type := some "device" }

/-- A validly signed token for `"d"` with the usual discriminator. -/
def tokenTypedEx : Token :=
  { valid := true, device_id := some "d", token_type := some "device" }

/-- The same token with the discriminator field removed. -/
def tokenUntypedEx : Token :=
  { valid := true, device_id := some "d", token_type := none }

/-! Helper lemmas shared across claims. -/

theorem cleanup_unbinds (s : ServerState) (did : String) :
    alookup (cleanup s did).connected_devices did = none :=
  alookup_aerase _ _

theorem mark_lookup_some (reg : List (String × Device)) (did st : String)
    (d : Device) (h : alookup reg did = some d) :
    alookup (mark reg did st) did = some { d with status := st } := by
  unfold mark
  rw [h]
  exact alookup_aset_self _ _ _

theorem stepReply_registry (s : ServerState) (r : Reply) (now : Nat) :
    (stepReply s r now).device_registry = s.device_registry := rfl

theorem loopTrace_registry (s : ServerState) (replies : List Reply) (now : Nat) :
    (loopTrace s replies now).2.device_registry = s.device_registry := by
  induction replies generalizing s with
  | nil => rfl
  | cons r rest ih => exact ih (stepReply s r now)

/-- Every exit path of the handler ends in the `finally` cleanup: the
final state is the cleanup of either the untouched entry state (failure
before binding) or the state left by the receive loop. -/
theorem runHandler_final (s : ServerState) (did : String) (ch : Channel)
    (script : ConnScript) (now : Nat) :
    (runHandler s did ch script now).final = cleanup s did ∨
    (runHandler s did ch script now).final =
      cleanup (loopTrace (bind s did ch) script.replies now).2 did := by
  obtain ⟨fst, replies⟩ := script
  cases fst with
  | none => exact Or.inl rfl
  | some t =>
    unfold runHandler verify_token
    dsimp only
    by_cases htv : t.valid = true
    · rw [if_pos htv]
      by_cases hdid : t.device_id = some did
      · dsimp only
        rw [if_pos hdid]
        exact Or.inr rfl
      · dsimp only
        rw [if_neg hdid]
        exact Or.inl rfl
    · rw [if_neg htv]
      exact Or.inl rfl

/-- C1 (counterexample): the claim says a terminal task is never changed
by a later resolve, but the receive loop checks only membership, not the
current state: a non-success reply for the already-`completed` task
`taskCompletedEx` flips its state to `failed` and overwrites its error
detail. -/
theorem resolve_mutates_terminal_task_cex :
    taskCompletedEx.status = "completed" ∧
    (alookup (resolveReply [("r", taskCompletedEx)] replyFailEx 20) "r").map
      Task.status = some "failed" ∧
    (alookup (resolveReply [("r", taskCompletedEx)] replyFailEx 20) "r").map
      Task.error = some (some "boom") := by
  refine ⟨rfl, by decide, by decide⟩

/-- C1 (amended): a resolve (an inbound reply carrying a command id)
on an unknown or falsy request id never raises and never mutates state;
a resolve on an existing task applies the reply unconditionally,
driving the task to `completed` (on a success reply, recording result
and completion timestamp) or `failed` (otherwise, recording the error)
regardless of its current state — so a pending task only moves to a
terminal state, but an already-terminal task is overwritten rather than
left untouched. -/
theorem resolve_unknown_noop_and_transitions (tasks : List (String × Task))
    (r : Reply) (now : Nat) :
    ((∀ cid : String, truthyId r.command_id = some cid → alookup tasks cid = none) →
      resolveReply tasks r now = tasks) ∧
    (∀ (cid : String) (task : Task), truthyId r.command_id = some cid →
      alookup tasks cid = some task →
      ∃ t' : Task, alookup (resolveReply tasks r now) cid = some t' ∧
        (t'.status = "completed" ∨ t'.status = "failed") ∧
        (r.status = some "success" →
          t'.status = "completed" ∧ t'.screenshot = r.result_screenshot ∧
          t'.resolution = r.result_resolution ∧ t'.completed_at = some now) ∧
        (r.status ≠ some "success" →
          t'.status = "failed" ∧
          t'.error = some (r.error_message.getD "Unknown error"))) := by
  constructor
  · intro h
    unfold resolveReply
    cases hc : truthyId r.command_id with
    | none => rfl
    | some cid =>
      dsimp only
      rw [h cid hc]
  · intro cid task hc hl
    unfold resolveReply
    rw [hc]
    dsimp only
    rw [hl]
    dsimp only
    refine ⟨applyReply task r now, alookup_aset_self _ _ _, ?_, ?_, ?_⟩
    · unfold applyReply
      by_cases hs : r.status = some "success"
      · rw [if_pos hs]
        exact Or.inl rfl
      · rw [if_neg hs]
        exact Or.inr rfl
    · intro hs
      unfold applyReply
      rw [if_pos hs]
      exact ⟨rfl, rfl, rfl, rfl⟩
    · intro hs
      unfold applyReply
      rw [if_neg hs]
      exact ⟨rfl, rfl⟩

/-- C1 (witness): a reply for an id absent from the table leaves the
table unchanged, and a success reply moves the pending task `"p"` to
`completed`. -/
theorem resolve_unknown_noop_and_transitions_witness :
    resolveReply [] replyFailEx 5 = [] ∧
    (alookup (resolveReply [("p", taskPendingEx)] replySuccessEx 7) "p").map
      Task.status = some "completed" := by
  refine ⟨(resolve_unknown_noop_and_transitions [] replyFailEx 5).1 ?_, ?_⟩
  · intro cid _
    rfl
  · obtain ⟨t', hl, -, hsucc, -⟩ :=
      (resolve_unknown_noop_and_transitions [("p", taskPendingEx)] replySuccessEx 7).2
        "p" taskPendingEx (by decide) (by decide)
    rw [hl]
    have hs := hsucc rfl
    show some t'.status = some "completed"
    rw [hs.1]

/-- C2 (counterexample): the cleanup run on handler exit (the `finally`
block) does not compare the stored channel with the handler's own: in
`stateBoundEx` peer `"d"` is bound to channel 2, yet a handler whose own
channel is 1 (here one whose authentication failed, so it never bound
anything) still evicts the entry when it exits. -/
theorem cleanup_evicts_newer_connection_cex :
    alookup stateBoundEx.connected_devices "d" = some 2 ∧
    (2 : Channel) ≠ 1 ∧
    alookup (runHandler stateBoundEx "d" 1
      ⟨some tokenOtherPeerEx, []⟩ 0).final.connected_devices "d" = none := by
  refine ⟨by decide, by decide, by decide⟩

/-- C2 (amended): the cleanup performed when a connection handler exits
removes the peer's entry from the connection table unconditionally —
regardless of whether the stored channel is the handler's own — so a
stale handler's cleanup does evict a newer connection that replaced it
for the same peer id. -/
theorem cleanup_unbinds_regardless_of_channel (s : ServerState) (did : String)
    (own stored : Channel) (hstored : alookup s.connected_devices did = some stored)
    (hne : stored ≠ own) :
    alookup (cleanup s did).connected_devices did = none :=
  cleanup_unbinds s did

/-- C2 (amended, witness): cleanup of peer `"d"` by a handler owning
channel 1 evicts the stored channel 2. -/
theorem cleanup_unbinds_regardless_of_channel_witness :
    alookup stateBoundEx.connected_devices "d" = some 2 ∧
    alookup (cleanup stateBoundEx "d").connected_devices "d" = none :=
  ⟨by decide,
   cleanup_unbinds_regardless_of_channel stateBoundEx "d" 1 2 (by decide) (by decide)⟩

/-- C3 (counterexample): the status read measures the retention window
from `created_at`, not from the completion timestamp: the task
`taskLateCompletionEx` was created at t=0 and completed at t=400, and a
read at t=401 — one second after completion, well inside the claimed
300-second window — evicts it. -/
theorem reap_measured_from_creation_cex :
    taskLateCompletionEx.completed_at = some 400 ∧
    401 - 400 < 300 ∧
    alookup (get_screenshot_status [("r", taskLateCompletionEx)] "r" 401).1 "r" =
      none := by
  refine ⟨rfl, by decide, by decide⟩

/-- C3 (amended): a terminal task is reaped on a status read exactly
when more than the retention window (300 seconds) has elapsed since its
CREATION timestamp; a read within 300 seconds of creation, or of a task
that is still pending, never evicts — but a task completed less than
300 seconds before the read is still evicted once its creation is old
enough. -/
theorem reap_window_measured_from_creation (tasks : List (String × Task))
    (rid : String) (now : Nat) (task : Task)
    (h : alookup tasks rid = some task) :
    ((now - task.created_at ≤ 300 ∨ task.status = "pending") →
      (get_screenshot_status tasks rid now).1 = tasks) ∧
    ((task.status = "completed" ∨ task.status = "failed") →
      now - task.created_at > 300 →
      (get_screenshot_status tasks rid now).1 = aerase tasks rid) := by
  constructor
  · intro hno
    unfold get_screenshot_status
    rw [h]
    have hcond : ¬((task.status = "completed" ∨ task.status = "failed") ∧
        now - task.created_at > 300) := by
      rcases hno with hle | hp
      · exact fun hand => absurd hand.2 (Nat.not_lt.mpr hle)
      · intro hand
        rcases hand.1 with hc | hf
        · rw [hp] at hc
          exact absurd hc (by decide)
        · rw [hp] at hf
          exact absurd hf (by decide)
    dsimp only
    rw [if_neg hcond]
  · intro hterm helap
    unfold get_screenshot_status
    rw [h]
    dsimp only
    rw [if_pos ⟨hterm, helap⟩]

/-- C3 (amended, witness): a read at t=100 of the terminal task created
at t=0 does not evict it, while a read at t=400 does. -/
theorem reap_window_measured_from_creation_witness :
    (get_screenshot_status [("r", taskCompletedEx)] "r" 100).1 =
      [("r", taskCompletedEx)] ∧
    (get_screenshot_status [("r", taskCompletedEx)] "r" 400).1 = [] := by
  have h1 := reap_window_measured_from_creation [("r", taskCompletedEx)] "r" 100
    taskCompletedEx (by decide)
  have h2 := reap_window_measured_from_creation [("r", taskCompletedEx)] "r" 400
    taskCompletedEx (by decide)
  refine ⟨h1.1 (Or.inl (by decide)), ?_⟩
  rw [h2.2 (Or.inl rfl) (by decide)]
  decide

/-- C4: for every handler invocation for peer id `did` that terminates —
on any path, including failure before successful authentication — the
`finally` cleanup removes whatever channel is currently bound for `did`
(final lookup is `none`), and if `did` is registered its status is set
to `"disconnected"`. -/
theorem handler_cleanup_unconditional (s : ServerState) (did : String)
    (ch : Channel) (script : ConnScript) (now : Nat) :
    alookup (runHandler s did ch script now).final.connected_devices did = none ∧
    (∀ d : Device, alookup s.device_registry did = some d →
      alookup (runHandler s did ch script now).final.device_registry did =
        some { d with status := "disconnected" }) := by
  rcases runHandler_final s did ch script now with hf | hf
  · rw [hf]
    exact ⟨cleanup_unbinds _ _, fun d hd => mark_lookup_some _ _ _ _ hd⟩
  · rw [hf]
    refine ⟨cleanup_unbinds _ _, fun d hd => ?_⟩
    have h1 : alookup (loopTrace (bind s did ch) script.replies
        now).2.device_registry did = some { d with status := "connected" } := by
      rw [loopTrace_registry]
      exact mark_lookup_some _ _ _ _ hd
    exact mark_lookup_some _ did "disconnected" { d with status := "connected" } h1

/-- C4 (witness): a handler for `"d"` whose very first receive fails —
before any authentication — still evicts the live binding of `"d"`
(channel 2, owned by another handler) and marks `"d"` disconnected. -/
theorem handler_cleanup_unconditional_witness :
    alookup (runHandler stateBoundEx "d" 7 ⟨none, []⟩ 0).final.connected_devices
      "d" = none ∧
    (alookup (runHandler stateBoundEx "d" 7
      ⟨none, []⟩ 0).final.device_registry "d").map Device.status =
      some "disconnected" := by
  have h := handler_cleanup_unconditional stateBoundEx "d" 7 ⟨none, []⟩ 0
  refine ⟨h.1, ?_⟩
  rw [h.2 devConnectedEx rfl]
  rfl

/-- C5: dispatching a command or opening a screenshot task for a peer id
absent from the registry fails with `UnknownPeer`; for a registered peer
id with no active channel it fails with `PeerNotConnected`, and in both
cases `request_screenshot` returns the state unchanged — no task is
created and no shared state is mutated (`execute_command` touches no
shared state at all). -/
theorem dispatch_requires_registered_connected (s : ServerState) (did : String)
    (desc : Option String) (rid : String) (now : Nat)
    (cmd : AutomationCommand) (fresh ts : String) (sendErr : Option String) :
    (alookup s.device_registry did = none →
      request_screenshot s did desc rid now sendErr =
        (s, Except.error DispatchError.UnknownPeer) ∧
      execute_command s did cmd fresh ts sendErr =
        Except.error DispatchError.UnknownPeer) ∧
    (∀ d : Device, alookup s.device_registry did = some d →
      alookup s.connected_devices did = none →
      request_screenshot s did desc rid now sendErr =
        (s, Except.error DispatchError.PeerNotConnected) ∧
      execute_command s did cmd fresh ts sendErr =
        Except.error DispatchError.PeerNotConnected) := by
  constructor
  · intro h
    have h' : (alookup s.device_registry did).isNone = true := by
      rw [h]
      rfl
    constructor
    · unfold request_screenshot
      rw [if_pos h']
    · unfold execute_command
      rw [if_pos h']
  · intro d hd hc
    have h1 : ¬((alookup s.device_registry did).isNone = true) := by
      rw [hd]
      exact fun hh => Bool.noConfusion hh
    have h2 : (alookup s.connected_devices did).isNone = true := by
      rw [hc]
      rfl
    constructor
    · unfold request_screenshot
      rw [if_neg h1, if_pos h2]
    · unfold execute_command
      rw [if_neg h1, if_pos h2]

/-- C5 (witness): dispatch to the unregistered id `"nope"` fails with
`UnknownPeer`; dispatch to the registered-but-never-connected peer
`"d"` fails with `PeerNotConnected` and leaves the state untouched. -/
theorem dispatch_requires_registered_connected_witness :
    request_screenshot stateRegisteredOnlyEx "nope" none "r9" 5 none =
      (stateRegisteredOnlyEx, Except.error DispatchError.UnknownPeer) ∧
    request_screenshot stateRegisteredOnlyEx "d" none "r9" 5 none =
      (stateRegisteredOnlyEx, Except.error DispatchError.PeerNotConnected) ∧
    execute_command stateRegisteredOnlyEx "d" cmdTapEx "f1" "t1" none =
      Except.error DispatchError.PeerNotConnected := by
  have hu := (dispatch_requires_registered_connected stateRegisteredOnlyEx "nope"
    none "r9" 5 cmdTapEx "f1" "t1" none).1 rfl
  have hn := (dispatch_requires_registered_connected stateRegisteredOnlyEx "d"
    none "r9" 5 cmdTapEx "f1" "t1" none).2
    { devConnectedEx with status := "registered" } rfl rfl
  exact ⟨hu.1, hn.1, hn.2⟩

/-- C6: a connection attempt whose correctly-signed credential encodes a
peer id different from the one the connection claims is closed with the
explicit rejection `close(1008, "Invalid token")` (the spec's
`AuthFailed`), and that connection's channel is never stored in the
connection table at any point of the handler's execution. -/
theorem auth_mismatch_rejected_never_bound (s : ServerState) (did other : String)
    (ch : Channel) (t : Token) (replies : List Reply) (now : Nat)
    (hvalid : t.valid = true) (henc : t.device_id = some other)
    (hne : other ≠ did)
    (hfresh : alookup s.connected_devices did ≠ some ch) :
    (runHandler s did ch ⟨some t, replies⟩ now).outcome =
      HandlerOutcome.closedWith 1008 "Invalid token" ∧
    ∀ st ∈ (runHandler s did ch ⟨some t, replies⟩ now).trace,
      alookup st.connected_devices did ≠ some ch := by
  have hdid : ¬(t.device_id = some did) := by
    rw [henc]
    intro hcon
    injection hcon with hcon'
    exact hne hcon'
  have hrun : runHandler s did ch ⟨some t, replies⟩ now =
      { trace := [s, cleanup s did]
        final := cleanup s did
        outcome := HandlerOutcome.closedWith 1008 "Invalid token" } := by
    unfold runHandler verify_token
    dsimp only
    rw [if_pos hvalid]
    dsimp only
    rw [if_neg hdid]
  rw [hrun]
  refine ⟨rfl, ?_⟩
  intro st hst
  rcases List.mem_cons.mp hst with hs | hst2
  · rw [hs]
    exact hfresh
  · rcases List.mem_cons.mp hst2 with hs | hnil
    · rw [hs, cleanup_unbinds]
      exact fun hcon => Option.noConfusion hcon
    · cases hnil

/-- C6 (witness): connecting as `"d"` with a valid token encoding peer
`"e"` is rejected with code 1008, and channel 1 is never bound for
`"d"` (in particular not in the final state). -/
theorem auth_mismatch_rejected_never_bound_witness :
    (runHandler stateBoundEx "d" 1 ⟨some tokenOtherPeerEx, []⟩ 0).outcome =
      HandlerOutcome.closedWith 1008 "Invalid token" ∧
    alookup (runHandler stateBoundEx "d" 1
      ⟨some tokenOtherPeerEx, []⟩ 0).final.connected_devices "d" ≠ some 1 := by
  have h := auth_mismatch_rejected_never_bound stateBoundEx "d" "e" 1
    tokenOtherPeerEx [] 0 rfl rfl (by decide) (by decide)
  exact ⟨h.1, h.2 _ (by decide)⟩

/-- C7: a status read of an existing terminal task whose retention
window has elapsed (more than 300 seconds since the record's reference
timestamp, as computed by the endpoint) returns the terminal snapshot
and evicts the record, so every subsequent read of that request id
fails with `UnknownTask` (and does not change the table further); a
read of a task that is still pending returns the pending snapshot and
never evicts it. -/
theorem read_terminal_reaps_once_pending_persists
    (tasks : List (String × Task)) (rid : String) (now now2 : Nat)
    (task : Task) (h : alookup tasks rid = some task) :
    ((task.status = "completed" ∨ task.status = "failed") →
      now - task.created_at > 300 →
      (get_screenshot_status tasks rid now).2 = Except.ok (mkSnapshot rid task) ∧
      alookup (get_screenshot_status tasks rid now).1 rid = none ∧
      (get_screenshot_status (get_screenshot_status tasks rid now).1 rid now2).2 =
        Except.error TaskReadError.UnknownTask ∧
      (get_screenshot_status (get_screenshot_status tasks rid now).1 rid now2).1 =
        (get_screenshot_status tasks rid now).1) ∧
    (task.status = "pending" →
      (get_screenshot_status tasks rid now).2 = Except.ok (mkSnapshot rid task) ∧
      (get_screenshot_status tasks rid now).1 = tasks) := by
  constructor
  · intro hterm helap
    have hread : get_screenshot_status tasks rid now =
        (aerase tasks rid, Except.ok (mkSnapshot rid task)) := by
      unfold get_screenshot_status
      rw [h]
      dsimp only
      rw [if_pos ⟨hterm, helap⟩]
    rw [hread]
    have hgone : alookup (aerase tasks rid) rid = none := alookup_aerase _ _
    have hread2 : get_screenshot_status (aerase tasks rid) rid now2 =
        (aerase tasks rid, Except.error TaskReadError.UnknownTask) := by
      unfold get_screenshot_status
      rw [hgone]
    exact ⟨rfl, hgone, by rw [hread2], by rw [hread2]⟩
  · intro hp
    have hcond : ¬((task.status = "completed" ∨ task.status = "failed") ∧
        now - task.created_at > 300) := by
      intro hand
      rcases hand.1 with hc | hf
      · rw [hp] at hc
        exact absurd hc (by decide)
      · rw [hp] at hf
        exact absurd hf (by decide)
    have hread : get_screenshot_status tasks rid now =
        (tasks, Except.ok (mkSnapshot rid task)) := by
      unfold get_screenshot_status
      rw [h]
      dsimp only
      rw [if_neg hcond]
    rw [hread]
    exact ⟨rfl, rfl⟩

/-- C7 (witness): reading the completed task `"r"` 400 seconds after
creation returns its snapshot and evicts it, the next read fails with
`UnknownTask`, and reading the pending task `"p"` at the same age
changes nothing. -/
theorem read_terminal_reaps_once_pending_persists_witness :
    (get_screenshot_status [("r", taskCompletedEx)] "r" 400).2 =
      Except.ok (mkSnapshot "r" taskCompletedEx) ∧
    alookup (get_screenshot_status [("r", taskCompletedEx)] "r" 400).1 "r" =
      none ∧
    (get_screenshot_status (get_screenshot_status [("r", taskCompletedEx)]
      "r" 400).1 "r" 401).2 = Except.error TaskReadError.UnknownTask ∧
    (get_screenshot_status [("p", taskPendingEx)] "p" 400).1 =
      [("p", taskPendingEx)] := by
  have h := read_terminal_reaps_once_pending_persists [("r", taskCompletedEx)]
    "r" 400 401 taskCompletedEx (by decide)
  have hp := read_terminal_reaps_once_pending_persists [("p", taskPendingEx)]
    "p" 400 0 taskPendingEx (by decide)
  have h1 := h.1 (Or.inl rfl) (by decide)
  exact ⟨h1.1, h1.2.1, h1.2.2.1, (hp.2 rfl).2⟩

/-- C8 (counterexample): the claim says the `parameters` field is the
supplied object or the empty object when absent, but a screenshot
command with no supplied description still carries the non-empty
parameters object `{"description": ""}`. -/
theorem screenshot_parameters_never_empty_cex :
    (screenshotCommandData "r1" none "t0").parameters = [("description", "")] ∧
    (screenshotCommandData "r1" none "t0").parameters ≠ [] := by
  exact ⟨rfl, by decide⟩

/-- C8 (amended): every command written to a peer's channel is a message
with exactly the fields `command_id`, `action`, `target`, `parameters`
and `timestamp`; for `execute_command` the fields are as the claim
states (the caller's id unless missing or empty — then a fresh one —
and target/parameters defaulting to the empty object); for
`request_screenshot` the command id is the fresh request id, the target
is empty, and `parameters` is the singleton object
`{"description": supplied description or ""}`, not the empty object. -/
theorem command_envelope_fields (command : AutomationCommand)
    (fresh ts rid : String) (desc : Option String) :
    ((command.command_id = none ∨ command.command_id = some "") →
      (executeCommandData command fresh ts).command_id = fresh) ∧
    (∀ c : String, command.command_id = some c → c ≠ "" →
      (executeCommandData command fresh ts).command_id = c) ∧
    (executeCommandData command fresh ts).action = command.action ∧
    (command.target = none → (executeCommandData command fresh ts).target = []) ∧
    (∀ t : Obj, command.target = some t →
      (executeCommandData command fresh ts).target = t) ∧
    (command.parameters = none →
      (executeCommandData command fresh ts).parameters = []) ∧
    (∀ p : Obj, command.parameters = some p →
      (executeCommandData command fresh ts).parameters = p) ∧
    (executeCommandData command fresh ts).timestamp = ts ∧
    screenshotCommandData rid desc ts =
      { command_id := rid
        action := "screenshot"
        target := []
        parameters := [("description", desc.getD "")]
        timestamp := ts } := by
  refine ⟨?_, ?_, rfl, ?_, ?_, ?_, ?_, rfl, rfl⟩
  · rintro (h | h)
    · unfold executeCommandData
      dsimp only
      rw [h]
    · unfold executeCommandData
      dsimp only
      rw [h]
      rfl
  · intro c h hne
    unfold executeCommandData
    dsimp only
    rw [h]
    dsimp only
    rw [if_neg hne]
  · intro h
    unfold executeCommandData
    dsimp only
    rw [h]
    rfl
  · intro t h
    unfold executeCommandData
    dsimp only
    rw [h]
    rfl
  · intro h
    unfold executeCommandData
    dsimp only
    rw [h]
    rfl
  · intro p h
    unfold executeCommandData
    dsimp only
    rw [h]
    rfl

/-- C8 (amended, witness): a command with a caller-supplied id and
target but no parameters keeps its id and target, gets empty
parameters, and the formatted time; a screenshot command with a
supplied description carries it inside `parameters`. -/
theorem command_envelope_fields_witness :
    (executeCommandData cmdSwipeEx "f0" "t7").command_id = "c1" ∧
    (executeCommandData cmdSwipeEx "f0" "t7").target = [("x", "1")] ∧
    (executeCommandData cmdSwipeEx "f0" "t7").parameters = [] ∧
    screenshotCommandData "r2" (some "desk") "t7" =
      { command_id := "r2"
        action := "screenshot"
        target := []
        parameters := [("description", "desk")]
        timestamp := "t7" } := by
  obtain ⟨h1, h2, -, -, h5, h6, -, -, h9⟩ :=
    command_envelope_fields cmdSwipeEx "f0" "t7" "r2" (some "desk")
  exact ⟨h2 "c1" rfl (by decide), h5 [("x", "1")] rfl, h6 rfl, h9⟩

/-- C9: when the transport write fails while sending a screenshot
command, the just-created task for the fresh request id is transitioned
to `failed` with the error detail recorded, and only then is the
failure surfaced (`TransportWriteFailed`); the failed task remains in
the table and a status read under that request id returns the `failed`
snapshot (and, the task being newly created, does not evict it). -/
theorem screenshot_send_failure_records_failed_task (s : ServerState)
    (did : String) (desc : Option String) (rid : String) (now : Nat)
    (e : String) (d : Device) (ch : Channel)
    (hreg : alookup s.device_registry did = some d)
    (hconn : alookup s.connected_devices did = some ch) :
    (request_screenshot s did desc rid now (some e)).2 =
      Except.error (DispatchError.TransportWriteFailed e) ∧
    alookup (request_screenshot s did desc rid now (some e)).1.screenshot_tasks
      rid = some
      { status := "failed"
        device_id := did
        description := desc
        created_at := now
        screenshot := none
        resolution := none
        error := some e
        completed_at := none } ∧
    (get_screenshot_status
      (request_screenshot s did desc rid now (some e)).1.screenshot_tasks rid
      now).2 = Except.ok
      { request_id := rid
        status := "failed"
        screenshot := none
        timestamp := none
        resolution := none
        error := some e } ∧
    (get_screenshot_status
      (request_screenshot s did desc rid now (some e)).1.screenshot_tasks rid
      now).1 =
      (request_screenshot s did desc rid now (some e)).1.screenshot_tasks := by
  have h1 : ¬((alookup s.device_registry did).isNone = true) := by
    rw [hreg]
    exact fun hh => Bool.noConfusion hh
  have h2 : ¬((alookup s.connected_devices did).isNone = true) := by
    rw [hconn]
    exact fun hh => Bool.noConfusion hh
  have hcond : ¬((("failed" : String) = "completed" ∨
      ("failed" : String) = "failed") ∧ now - now > 300) := by
    rw [Nat.sub_self]
    exact fun hand => Nat.not_lt_zero 300 hand.2
  unfold request_screenshot
  rw [if_neg h1, if_neg h2]
  dsimp only
  refine ⟨rfl, alookup_aset_self _ _ _, ?_, ?_⟩
  · unfold get_screenshot_status
    rw [alookup_aset_self]
    rfl
  · unfold get_screenshot_status
    rw [alookup_aset_self]
    dsimp only
    rw [if_neg hcond]

/-- C9 (witness): a failed send of a screenshot command to the
connected peer `"d"` surfaces `TransportWriteFailed` and leaves a
readable `failed` task under the fresh request id `"r5"`. -/
theorem screenshot_send_failure_records_failed_task_witness :
    (request_screenshot stateBoundEx "d" none "r5" 50 (some "io down")).2 =
      Except.error (DispatchError.TransportWriteFailed "io down") ∧
    (alookup (request_screenshot stateBoundEx "d" none "r5" 50
      (some "io down")).1.screenshot_tasks "r5").map Task.status =
      some "failed" ∧
    (get_screenshot_status (request_screenshot stateBoundEx "d" none "r5" 50
      (some "io down")).1.screenshot_tasks "r5" 50).2 = Except.ok
      { request_id := "r5"
        status := "failed"
        screenshot := none
        timestamp := none
        resolution := none
        error := some "io down" } := by
  have h := screenshot_send_failure_records_failed_task stateBoundEx "d" none
    "r5" 50 "io down" devConnectedEx 2 rfl rfl
  refine ⟨h.1, ?_, h.2.2.1⟩
  rw [h.2.1]
  rfl

/-- C10: credential verification accepts any correctly signed token
whose encoded `device_id` equals the claimed peer id, regardless of the
value or presence of the `type` discriminator field: two tokens
differing only in that field yield the same acceptance decision, and
the whole handler run is identical for them. -/
theorem token_type_field_irrelevant (t1 t2 : Token) (s : ServerState)
    (did : String) (ch : Channel) (replies : List Reply) (now : Nat)
    (hv : t1.valid = t2.valid) (hd : t1.device_id = t2.device_id) :
    authAccept t1 did = authAccept t2 did ∧
    runHandler s did ch ⟨some t1, replies⟩ now =
      runHandler s did ch ⟨some t2, replies⟩ now := by
  obtain ⟨v1, d1, y1⟩ := t1
  obtain ⟨v2, d2, y2⟩ := t2
  dsimp only at hv hd
  subst hv
  subst hd
  constructor
  · cases v1 <;> rfl
  · cases v1 <;> rfl

/-- C10 (witness): the token for `"d"` with discriminator
`type = "device"` and the same token with the field absent produce the
same acceptance decision and the same handler run. -/
theorem token_type_field_irrelevant_witness :
    tokenTypedEx.token_type ≠ tokenUntypedEx.token_type ∧
    authAccept tokenTypedEx "d" = authAccept tokenUntypedEx "d" ∧
    runHandler stateBoundEx "d" 3 ⟨some tokenTypedEx, []⟩ 0 =
      runHandler stateBoundEx "d" 3 ⟨some tokenUntypedEx, []⟩ 0 := by
  have h := token_type_field_irrelevant tokenTypedEx tokenUntypedEx stateBoundEx
    "d" 3 [] 0 rfl rfl
  exact ⟨by decide, h.1, h.2⟩

end DeviceAutomation
